import Mathlib

/-
Shallow embedding of the weather-data normalization core of src/weatherApi.ts
(class OpenMeteoAPI): the weather-code classifier, unit conversion helpers,
the current-conditions builder (formatCurrentWeather), the forecast
aggregator (formatForecast), the reverse-geocoding label fallback
(getCityNameByCoords) and the facade (getWeatherAndForecast).

Modelling conventions, each noted again at its definition:
- JS numbers are modelled as rationals.  Math.round is floor(x + 1/2),
  which matches the JS rounding of halves toward positive infinity.
- A JS value that is undefined or NaN because an array index was out of
  range, or because an average was taken over zero samples, is modelled as
  the none case of an Option.  This keeps the embedding total exactly the
  way the JS code is: the code never throws at these points, it silently
  carries the non-numeric value.
- Provider time strings are modelled as already-parsed local date-times
  (LocalDT): a calendar date plus hour and minute in the timezone the
  provider reports.  The only operations the source performs on parsed
  Date values are toDateString equality (calendar-date equality) and
  passing the value through, so this carries exactly the needed structure.
- The ambient clock read new Date().getHours() is an explicit currentHour
  parameter, and the two external lookups of the facade are explicit
  inputs: the already-deserialized forecast payload, and the result of the
  reverse geocoding request, with none standing for a failed request
  (the branch in which the source catch returns the Unknown label).
-/

namespace WeatherApi

/-- JS Math.round on a rational: floor of x + 1/2 (halves round toward
positive infinity, matching JS). -/
def jsRound (q : ℚ) : ℤ := (q + 1/2).floor

/-- The hPa to mmHg factor 0.750062 used at the pressure conversion sites. -/
def mmHgPerHPa : ℚ := 750062 / 1000000

/-- JS truthy or-else on an optional string, the source pattern s or-bar-bar d:
undefined and the empty string are falsy and fall through to the default. -/
def jsOrStr (o : Option String) (d : String) : String :=
  match o with
  | some s => if s = "" then d else s
  | none => d

/-- JS Math.min over a spread array: none models the empty spread (where JS
yields Infinity); a nonempty list folds min over its elements, which is
exactly List.min?. -/
def jsMinList (l : List ℚ) : Option ℚ := l.min?

/-- JS Math.max over a spread array, as in jsMinList. -/
def jsMaxList (l : List ℚ) : Option ℚ := l.max?

/-- JS array read with a possibly negative integer index: a negative index
reads an absent property and yields undefined, modelled as none. -/
def jsIndex {α : Type} (l : List α) (i : ℤ) : Option α :=
  if 0 ≤ i then l[i.toNat]? else none

/-- Calendar date (year, month, day) in the timezone the provider reports:
the content of a JS Date toDateString comparison. -/
structure CalDate where
  year : ℤ
  month : ℕ
  day : ℕ
deriving DecidableEq, Inhabited

/-- Strict calendar order on dates, lexicographic on year, month, day. -/
def CalDate.before (a b : CalDate) : Prop :=
  a.year < b.year ∨ (a.year = b.year ∧
    (a.month < b.month ∨ (a.month = b.month ∧ a.day < b.day)))

instance : DecidableRel CalDate.before := fun a b =>
  inferInstanceAs (Decidable (a.year < b.year ∨ (a.year = b.year ∧
    (a.month < b.month ∨ (a.month = b.month ∧ a.day < b.day)))))

/-- Parsed local date-time: what new Date(timeString) carries of a provider
time value for the operations the source performs on it. -/
structure LocalDT where
  date : CalDate
  hour : ℕ
  minute : ℕ
deriving DecidableEq, Inhabited

/-- Weather-code description table of getWeatherDescription, the 22 listed
codes, source lines 318-341. -/
def weatherCodes : List (ℤ × String) :=
  [(0, "Ясно"), (1, "Преимущественно ясно"), (2, "Переменная облачность"),
   (3, "Пасмурно"), (45, "Туман"), (48, "Изморозь"), (51, "Легкая морось"),
   (53, "Умеренная морось"), (55, "Сильная морось"), (61, "Легкий дождь"),
   (63, "Умеренный дождь"), (65, "Сильный дождь"), (71, "Легкий снег"),
   (73, "Умеренный снег"), (75, "Сильный снег"), (77, "Снежная крупа"),
   (80, "Легкие ливни"), (81, "Умеренные ливни"), (82, "Сильные ливни"),
   (95, "Гроза"), (96, "Гроза с градом"), (99, "Сильная гроза с градом")]

/-- Source getWeatherDescription: table lookup with fallback via JS or-bar-bar. -/
def getWeatherDescription (code : ℤ) : String :=
  jsOrStr (weatherCodes.lookup code) "Неизвестно"

/-- Weather-code to icon-id table of getWeatherIcon, source lines 347-355. -/
def iconMap : List (ℤ × String) :=
  [(0, "01d"), (1, "02d"), (2, "03d"), (3, "04d"), (45, "50d"), (48, "50d"),
   (51, "09d"), (53, "09d"), (55, "09d"), (61, "10d"), (63, "10d"),
   (65, "10d"), (71, "13d"), (73, "13d"), (75, "13d"), (77, "13d"),
   (80, "09d"), (81, "09d"), (82, "09d"), (95, "11d"), (96, "11d"),
   (99, "11d")]

/-- Source getWeatherIcon: table lookup with default clear-sky icon 01d. -/
def getWeatherIcon (code : ℤ) : String :=
  jsOrStr (iconMap.lookup code) "01d"

/-- Source getWeatherIconUrl: URL built from getWeatherIcon of the same code. -/
def getWeatherIconUrl (code : ℤ) : String :=
  "https://openweathermap.org/img/wn/" ++ getWeatherIcon code ++ "@2x.png"

/-- Icon-id to display glyph table of getAlternativeIcon, source lines 389-399. -/
def alternativeIconMap : List (String × String) :=
  [("01d", "☀️"), ("01n", "🌙"), ("02d", "⛅"), ("02n", "☁️"),
   ("03d", "☁️"), ("03n", "☁️"), ("04d", "☁️"), ("04n", "☁️"),
   ("09d", "🌧️"), ("09n", "🌧️"), ("10d", "🌦️"), ("10n", "🌧️"),
   ("11d", "⛈️"), ("11n", "⛈️"), ("13d", "❄️"), ("13n", "❄️"),
   ("50d", "🌫️"), ("50n", "🌫️")]

/-- Source getAlternativeIcon: glyph lookup with the explicit fallback glyph. -/
def getAlternativeIcon (iconCode : String) : String :=
  jsOrStr (alternativeIconMap.lookup iconCode) "❓"

/-- Compass labels of getWindDirection, eight octants starting at north. -/
def windDirections : List String :=
  ["С", "СВ", "В", "ЮВ", "Ю", "ЮЗ", "З", "СЗ"]

/-- Source getWindDirection: index Math.round(deg / 45) % 8 into the octant
array.  The JS percent operator is the truncated remainder (sign of the
dividend), Int.tmod, and a negative JS array index yields undefined. -/
def getWindDirection (deg : ℚ) : Option String :=
  jsIndex windDirections (Int.tmod (jsRound (deg / 45)) 8)

/-- Instant snapshot current_weather of the provider payload. -/
structure CurrentWeatherSnapshot where
  temperature : ℚ
  windspeed : ℚ
  winddirection : ℚ
  weathercode : ℤ
  time : LocalDT
deriving DecidableEq, Inhabited

/-- Hourly axis of the provider payload: parallel arrays on one time axis. -/
structure HourlyBlock where
  time : List LocalDT
  temperature_2m : List ℚ
  apparent_temperature : List ℚ
  relative_humidity_2m : List ℚ
  pressure_msl : List ℚ
  cloudcover : List ℚ
  visibility : List ℚ
  windspeed_10m : List ℚ
  winddirection_10m : List ℚ
  weathercode : List ℤ
deriving DecidableEq, Inhabited

/-- Daily axis of the provider payload: parallel arrays, one entry per day. -/
structure DailyBlock where
  time : List LocalDT
  temperature_2m_max : List ℚ
  temperature_2m_min : List ℚ
  sunrise : List LocalDT
  sunset : List LocalDT
  weathercode : List ℤ
deriving DecidableEq, Inhabited

/-- Provider payload as consumed by the formatters.  The source asserts
presence of the three blocks with non-null assertions at every use, so they
are plain fields here. -/
structure OpenMeteoResponse where
  latitude : ℚ
  longitude : ℚ
  current_weather : CurrentWeatherSnapshot
  hourly : HourlyBlock
  daily : DailyBlock
deriving DecidableEq, Inhabited

/-- City and country label produced by the reverse geocoding step. -/
structure LocationLabel where
  city : String
  country : String
deriving DecidableEq, Inhabited

/-- Normalized current conditions (interface WeatherData).  Fields read from
the hourly axis at the current-hour index, and the min and max over the
daily arrays, are optional: none models the silent JS undefined or NaN when
the index is out of range or the spread is empty. -/
structure WeatherData where
  temp : ℤ
  tempMin : Option ℤ
  tempMax : Option ℤ
  feelsLike : Option ℤ
  humidity : Option ℤ
  pressure : Option ℤ
  windSpeed : ℚ
  windDeg : ℚ
  clouds : Option ℤ
  visibility : Option ℤ
  description : String
  icon : String
  iconUrl : String
  cityName : String
  country : String
  sunrise : Option LocalDT
  sunset : Option LocalDT
  dt : LocalDT
deriving DecidableEq, Inhabited

/-- Normalized hourly sample (interface HourlyWeatherData). -/
structure HourlyWeatherData where
  dt : LocalDT
  temp : ℤ
  feelsLike : ℤ
  humidity : ℤ
  pressure : ℤ
  windSpeed : ℚ
  windDeg : ℚ
  clouds : ℤ
  description : String
  icon : String
  iconUrl : String
deriving DecidableEq, Inhabited

/-- Normalized day of forecast (interface DailyForecast).  The three
day-level averages are optional: none models the silent JS NaN produced by
averaging an empty bucket. -/
structure DailyForecast where
  date : LocalDT
  tempMin : ℤ
  tempMax : ℤ
  tempAvg : ℤ
  humidity : Option ℤ
  pressure : Option ℤ
  windSpeed : Option ℚ
  description : String
  icon : String
  iconUrl : String
  hourly : List HourlyWeatherData
deriving DecidableEq, Inhabited

/-- Forecast result (interface ForecastData). -/
structure ForecastData where
  city : String
  country : String
  forecast : List DailyForecast
deriving DecidableEq, Inhabited

/-- Combined result of the facade method getWeatherAndForecast. -/
structure CombinedResult where
  current : WeatherData
  forecast : ForecastData
deriving DecidableEq, Inhabited

/-- Source formatCurrentWeather, lines 238-263.  currentHour is the ambient
new Date().getHours() read, made an explicit parameter.  Aligned hourly
fields use the optional index read; tempMin and tempMax take round of min
and max over the entire daily min and max arrays; sunrise and sunset come
from daily index 0. -/
def formatCurrentWeather (data : OpenMeteoResponse) (location : LocationLabel)
    (currentHour : ℕ) : WeatherData :=
  let current := data.current_weather
  { temp := jsRound current.temperature
    tempMin := (jsMinList data.daily.temperature_2m_min).map jsRound
    tempMax := (jsMaxList data.daily.temperature_2m_max).map jsRound
    feelsLike := (data.hourly.apparent_temperature[currentHour]?).map jsRound
    humidity := (data.hourly.relative_humidity_2m[currentHour]?).map jsRound
    pressure := (data.hourly.pressure_msl[currentHour]?).map
      (fun p => jsRound (p * mmHgPerHPa))
    windSpeed := current.windspeed
    windDeg := current.winddirection
    clouds := (data.hourly.cloudcover[currentHour]?).map jsRound
    visibility := (data.hourly.visibility[currentHour]?).map jsRound
    description := getWeatherDescription current.weathercode
    icon := getWeatherIcon current.weathercode
    iconUrl := getWeatherIconUrl current.weathercode
    cityName := location.city
    country := location.country
    sunrise := data.daily.sunrise[0]?
    sunset := data.daily.sunset[0]?
    dt := current.time }

/-- One normalized hourly sample of the forEach body in formatForecast,
lines 275-287, built from hourly-axis position index whose time value is t.
Parallel-array reads use a default of zero: the source relies on the
equal-length axis invariant of the payload, under which the default is
never taken. -/
def mkHourlySample (h : HourlyBlock) (t : LocalDT) (index : ℕ) : HourlyWeatherData :=
  { dt := t
    temp := jsRound (h.temperature_2m.getD index 0)
    feelsLike := jsRound (h.apparent_temperature.getD index 0)
    humidity := jsRound (h.relative_humidity_2m.getD index 0)
    pressure := jsRound (h.pressure_msl.getD index 0 * mmHgPerHPa)
    windSpeed := h.windspeed_10m.getD index 0
    windDeg := h.winddirection_10m.getD index 0
    clouds := jsRound (h.cloudcover.getD index 0)
    description := getWeatherDescription (h.weathercode.getD index 0)
    icon := getWeatherIcon (h.weathercode.getD index 0)
    iconUrl := getWeatherIconUrl (h.weathercode.getD index 0) }

/-- Day bucket of formatForecast lines 272-289: every hourly-axis sample
whose calendar date (toDateString) equals the date of the daily entry, in
original axis order, with its position kept for the parallel-array reads. -/
def bucketHourly (h : HourlyBlock) (date : LocalDT) : List HourlyWeatherData :=
  (h.time.enum.filter (fun p => p.2.date = date.date)).map
    (fun p => mkHourlySample h p.2 p.1)

/-- Loop body of formatForecast, lines 268-307, for daily index i with daily
time value date: bucket the hourly axis by calendar date, average humidity,
pressure and wind speed over the bucket (none when the bucket is empty,
where JS produces NaN), and take the temperature fields of the daily axis
at index i. -/
def mkDay (data : OpenMeteoResponse) (i : ℕ) (date : LocalDT) : DailyForecast :=
  let hourlyData := bucketHourly data.hourly date
  let n : ℚ := hourlyData.length
  let avgHumidity : ℚ :=
    (hourlyData.foldl (fun sum h => sum + (h.humidity : ℚ)) 0) / n
  let avgPressure : ℚ :=
    (hourlyData.foldl (fun sum h => sum + (h.pressure : ℚ)) 0) / n
  let avgWindSpeed : ℚ :=
    (hourlyData.foldl (fun sum h => sum + h.windSpeed) 0) / n
  { date := date
    tempMin := jsRound (data.daily.temperature_2m_min.getD i 0)
    tempMax := jsRound (data.daily.temperature_2m_max.getD i 0)
    tempAvg := jsRound ((data.daily.temperature_2m_min.getD i 0 +
      data.daily.temperature_2m_max.getD i 0) / 2)
    humidity := if hourlyData.isEmpty then none else some (jsRound avgHumidity)
    pressure := if hourlyData.isEmpty then none else some (jsRound avgPressure)
    windSpeed := if hourlyData.isEmpty then none
      else some ((jsRound (avgWindSpeed * 10) : ℚ) / 10)
    description := getWeatherDescription (data.daily.weathercode.getD i 0)
    icon := getWeatherIcon (data.daily.weathercode.getD i 0)
    iconUrl := getWeatherIconUrl (data.daily.weathercode.getD i 0)
    hourly := hourlyData }

/-- Source formatForecast, lines 265-315: one day per daily-axis entry of
index below min 5 (daily length), in axis order. -/
def formatForecast (data : OpenMeteoResponse) (location : LocationLabel) : ForecastData :=
  { city := location.city
    country := location.country
    forecast := (data.daily.time.take 5).enum.map (fun p => mkDay data p.1 p.2) }

/-- Reverse geocoding address object of the Nominatim response. -/
structure NominatimAddress where
  city : Option String
  town : Option String
  village : Option String
  state : Option String
  country : Option String
  country_code : Option String
deriving DecidableEq, Inhabited

/-- Reverse geocoding response body, with its optional address object. -/
structure NominatimResponse where
  address : Option NominatimAddress
deriving DecidableEq, Inhabited

/-- Source getCityNameByCoords, lines 212-236.  The argument is the outcome
of the external reverse lookup: none is a failed request, handled by the
source catch branch returning the sentinel Unknown label with an empty
country; a successful response goes through the JS or-bar-bar chain over
city, town, village and the upper-cased country code. -/
def getCityNameByCoords (result : Option NominatimResponse) : LocationLabel :=
  match result with
  | none => { city := "Unknown", country := "" }
  | some resp =>
    { city := jsOrStr (resp.address.bind (fun a => a.city))
        (jsOrStr (resp.address.bind (fun a => a.town))
          (jsOrStr (resp.address.bind (fun a => a.village)) "Unknown"))
      country := jsOrStr ((resp.address.bind (fun a => a.country_code)).map
        (fun s => s.toUpper)) "" }

/-- Source getWeatherAndForecast, lines 127-161, after the external forecast
fetch has been deserialized into data and the reverse lookup has finished
with result reverseLookup: one location label feeds both formatters. -/
def getWeatherAndForecast (data : OpenMeteoResponse)
    (reverseLookup : Option NominatimResponse) (currentHour : ℕ) : CombinedResult :=
  let locationInfo := getCityNameByCoords reverseLookup
  { current := formatCurrentWeather data locationInfo currentHour
    forecast := formatForecast data locationInfo }

/-- Rounding agrees with the floor of x + 1/2 stated through the ambient
floor function. -/
theorem jsRound_eq_floor (q : ℚ) : jsRound q = ⌊q + 1/2⌋ := by
  rw [jsRound, Rat.floor_def', ← Rat.floor_def]

/-- Lookup misses every key absent from the key column. -/
theorem lookup_eq_none_of_not_mem_keys {α β : Type} [BEq α] [LawfulBEq α]
    (l : List (α × β)) (c : α) (h : c ∉ l.map Prod.fst) : l.lookup c = none := by
  induction l with
  | nil => rfl
  | cons p t ih =>
    obtain ⟨k, v⟩ := p
    simp only [List.map_cons, List.mem_cons, not_or] at h
    have hk : (c == k) = false := by
      simp only [beq_eq_false_iff_ne, ne_eq]
      exact h.1
    simp [List.lookup, hk, ih h.2]

/-- Lookup finds the value of any listed pair when keys are distinct. -/
theorem lookup_eq_some_of_mem {α β : Type} [BEq α] [LawfulBEq α] :
    ∀ (l : List (α × β)), (l.map Prod.fst).Nodup →
      ∀ {a : α} {b : β}, (a, b) ∈ l → l.lookup a = some b := by
  intro l
  induction l with
  | nil => intro _ a b hmem; simp at hmem
  | cons p t ih =>
    obtain ⟨k, v⟩ := p
    intro hnd a b hmem
    rw [List.map_cons, List.nodup_cons] at hnd
    rcases List.mem_cons.mp hmem with heq | hmemt
    · obtain ⟨rfl, rfl⟩ := Prod.mk.injEq .. ▸ heq
      simp [List.lookup]
    · have hak : (a == k) = false := by
        simp only [beq_eq_false_iff_ne, ne_eq]
        intro rfl_eq
        exact hnd.1 (rfl_eq ▸ List.mem_map.mpr ⟨(a, b), hmemt, rfl⟩)
      simp [List.lookup, hak, ih hnd.2 hmemt]

/-- Distinct positions of a duplicate-free list hold distinct values. -/
theorem ne_of_nodup_getElem? {α : Type} {L : List α} (hnd : L.Nodup) {j k : ℕ}
    {x y : α} (hj : L[j]? = some x) (hk : L[k]? = some y) (hjk : j ≠ k) : x ≠ y := by
  intro hxy
  subst hxy
  obtain ⟨hjl, hjget⟩ := List.getElem?_eq_some_iff.mp hj
  obtain ⟨hkl, hkget⟩ := List.getElem?_eq_some_iff.mp hk
  have : (⟨j, hjl⟩ : Fin L.length) = ⟨k, hkl⟩ :=
    List.nodup_iff_injective_get.mp hnd (by simp [List.get_eq_getElem, hjget, hkget])
  exact hjk (Fin.mk.injEq .. ▸ this)

/-- Folding addition of a projection equals the initial value plus the sum
of the mapped list. -/
theorem foldl_add_map {α : Type} (f : α → ℚ) :
    ∀ (l : List α) (init : ℚ),
      l.foldl (fun sum a => sum + f a) init = init + (l.map f).sum := by
  intro l
  induction l with
  | nil => intro init; simp
  | cons a t ih =>
    intro init
    simp only [List.foldl_cons, List.map_cons, List.sum_cons, ih]
    ring

/-- Filtering an enumeration on a property of the element and dropping the
indices is filtering the underlying list. -/
theorem enumFrom_filter_snd {α : Type} (pred : α → Bool) :
    ∀ (n : ℕ) (l : List α),
      ((List.enumFrom n l).filter (fun p => pred p.2)).map Prod.snd = l.filter pred := by
  intro n l
  induction l generalizing n with
  | nil => rfl
  | cons a t ih =>
    simp only [List.enumFrom_cons, List.filter_cons]
    cases h : pred a <;> simp [h, ih]

/-- Characterization of the JS spread minimum on a nonempty array. -/
theorem jsMinList_spec {l : List ℚ} {a : ℚ} (h : jsMinList l = some a) :
    a ∈ l ∧ ∀ b ∈ l, a ≤ b := by
  refine ⟨List.min?_mem (fun a b => min_choice a b) h, fun b hb => ?_⟩
  exact (List.le_min?_iff (fun a b c => le_min_iff) h).mp le_rfl b hb

/-- Characterization of the JS spread maximum on a nonempty array. -/
theorem jsMaxList_spec {l : List ℚ} {a : ℚ} (h : jsMaxList l = some a) :
    a ∈ l ∧ ∀ b ∈ l, b ≤ a := by
  refine ⟨List.max?_mem (fun a b => max_choice a b) h, fun b hb => ?_⟩
  exact (List.max?_le_iff (fun a b c => max_le_iff) h).mp le_rfl b hb

/-- Nonempty lists have a spread minimum and maximum. -/
theorem jsMinList_isSome {l : List ℚ} (h : l ≠ []) : ∃ a, jsMinList l = some a := by
  cases hm : jsMinList l with
  | none => exact absurd (List.min?_eq_none_iff.mp hm) h
  | some a => exact ⟨a, rfl⟩

/-- Nonempty lists have a spread maximum. -/
theorem jsMaxList_isSome {l : List ℚ} (h : l ≠ []) : ∃ a, jsMaxList l = some a := by
  cases hm : jsMaxList l with
  | none => exact absurd (List.max?_eq_none_iff.mp hm) h
  | some a => exact ⟨a, rfl⟩

/-- C6: the classifier functions are total with fixed fallbacks: every
listed weather code maps to its table description and icon, every other
integer maps to the fixed fallback description and the default clear-sky
icon, and every icon id maps to its table glyph or the fallback glyph. -/
theorem classifier_total_with_fallbacks :
    (∀ p ∈ weatherCodes, getWeatherDescription p.1 = p.2)
    ∧ (∀ code : ℤ, code ∉ weatherCodes.map Prod.fst →
        getWeatherDescription code = "Неизвестно")
    ∧ (∀ p ∈ iconMap, getWeatherIcon p.1 = p.2)
    ∧ (∀ code : ℤ, code ∉ iconMap.map Prod.fst → getWeatherIcon code = "01d")
    ∧ (∀ p ∈ alternativeIconMap, getAlternativeIcon p.1 = p.2)
    ∧ (∀ s : String, s ∉ alternativeIconMap.map Prod.fst →
        getAlternativeIcon s = "❓") := by
  refine ⟨?_, ?_, ?_, ?_, ?_, ?_⟩
  · intro p hp
    obtain ⟨k, v⟩ := p
    have hl := lookup_eq_some_of_mem weatherCodes (by decide) hp
    have hv : v ≠ "" := by
      have : ∀ p ∈ weatherCodes, p.2 ≠ "" := by decide
      exact this (k, v) hp
    simp [getWeatherDescription, hl, jsOrStr, hv]
  · intro c hc
    rw [getWeatherDescription, lookup_eq_none_of_not_mem_keys _ _ hc]
    rfl
  · intro p hp
    obtain ⟨k, v⟩ := p
    have hl := lookup_eq_some_of_mem iconMap (by decide) hp
    have hv : v ≠ "" := by
      have : ∀ p ∈ iconMap, p.2 ≠ "" := by decide
      exact this (k, v) hp
    simp [getWeatherIcon, hl, jsOrStr, hv]
  · intro c hc
    rw [getWeatherIcon, lookup_eq_none_of_not_mem_keys _ _ hc]
    rfl
  · intro p hp
    obtain ⟨k, v⟩ := p
    have hl := lookup_eq_some_of_mem alternativeIconMap (by decide) hp
    have hv : v ≠ "" := by
      have : ∀ p ∈ alternativeIconMap, p.2 ≠ "" := by decide
      exact this (k, v) hp
    simp [getAlternativeIcon, hl, jsOrStr, hv]
  · intro s hs
    rw [getAlternativeIcon, lookup_eq_none_of_not_mem_keys _ _ hs]
    rfl

/-- Concrete evaluations of the classifier theorem: a listed code, an
unlisted code, a listed icon id and an unlisted one. -/
theorem classifier_total_with_fallbacks_witness :
    getWeatherDescription 0 = "Ясно" ∧ getWeatherDescription 7 = "Неизвестно"
    ∧ getWeatherIcon 1 = "02d" ∧ getWeatherIcon 7 = "01d"
    ∧ getAlternativeIcon "10n" = "🌧️" ∧ getAlternativeIcon "xx" = "❓" :=
  ⟨classifier_total_with_fallbacks.1 (0, "Ясно") (by decide),
   classifier_total_with_fallbacks.2.1 7 (by decide),
   classifier_total_with_fallbacks.2.2.1 (1, "02d") (by decide),
   classifier_total_with_fallbacks.2.2.2.1 7 (by decide),
   classifier_total_with_fallbacks.2.2.2.2.1 ("10n", "🌧️") (by decide),
   classifier_total_with_fallbacks.2.2.2.2.2 "xx" (by decide)⟩

/-- C7 counterexample: at minus 45 degrees the rounded octant is minus one,
the JS remainder keeps the sign of the dividend, and the negative array
index reads undefined, so no label is produced; the same angle shifted by a
full turn produces the northwest label, refuting periodicity as stated. -/
theorem getWindDirection_negative_counterexample :
    getWindDirection (-45) = none ∧ getWindDirection (-45 + 360) = some "СЗ" := by
  constructor <;> with_unfolding_all rfl

/-- C7 amended: for nonnegative degrees the function returns the octant
label at round (deg / 45) mod 8 (mathematical modulus), the result always
exists, and periodicity under adding a full turn holds. -/
theorem getWindDirection_octant_of_nonneg (deg : ℚ) (hdeg : 0 ≤ deg) :
    getWindDirection deg = windDirections[((jsRound (deg / 45)) % 8).toNat]?
    ∧ (getWindDirection deg).isSome = true
    ∧ getWindDirection (deg + 360) = getWindDirection deg := by
  have hn : 0 ≤ jsRound (deg / 45) := by
    rw [jsRound_eq_floor]
    refine Int.le_floor.mpr ?_
    push_cast
    have h45 : (0:ℚ) ≤ deg / 45 := by positivity
    linarith
  have htmod : Int.tmod (jsRound (deg / 45)) 8 = jsRound (deg / 45) % 8 :=
    Int.tmod_eq_emod hn (by norm_num)
  have hmodnn : 0 ≤ jsRound (deg / 45) % 8 := Int.emod_nonneg _ (by norm_num)
  have hmodlt : jsRound (deg / 45) % 8 < 8 := Int.emod_lt_of_pos _ (by norm_num)
  have hfirst : getWindDirection deg = windDirections[((jsRound (deg / 45)) % 8).toNat]? := by
    rw [getWindDirection, jsIndex, htmod, if_pos hmodnn]
  refine ⟨hfirst, ?_, ?_⟩
  · rw [hfirst]
    have hlt : ((jsRound (deg / 45)) % 8).toNat < windDirections.length := by
      have : windDirections.length = 8 := by decide
      omega
    simp [List.getElem?_eq_getElem hlt]
  · have hshift : jsRound ((deg + 360) / 45) = jsRound (deg / 45) + 8 := by
      rw [jsRound_eq_floor, jsRound_eq_floor]
      have harg : (deg + 360) / 45 + 1/2 = deg / 45 + 1/2 + (8:ℤ) := by
        push_cast
        ring
      rw [harg, Int.floor_add_int]
    have htmod' : Int.tmod (jsRound ((deg + 360) / 45)) 8 =
        Int.tmod (jsRound (deg / 45)) 8 := by
      rw [hshift, Int.tmod_eq_emod (by omega) (by norm_num), htmod]
      omega
    rw [getWindDirection, getWindDirection, htmod']

/-- Concrete evaluation of the amended wind-direction theorem at 90
degrees: the east octant, and periodicity at a full turn. -/
theorem getWindDirection_octant_witness :
    getWindDirection 90 = some "В" ∧ getWindDirection (90 + 360) = getWindDirection 90 := by
  have H := getWindDirection_octant_of_nonneg 90 (by norm_num)
  refine ⟨?_, H.2.2⟩
  rw [H.1]
  with_unfolding_all rfl

/-- Location label used by the concrete evaluations. -/
def locP : LocationLabel := { city := "Testville", country := "TC" }

/-- Concrete payload matching the spec example for the current-conditions
builder: snapshot temperature 15, weather code 61, observed at ten in the
morning of January 1, daily min array [5, 18] and max array [8, 22] over
two days.  The hourly axis has a single sample, at hour zero. -/
def payloadC3 : OpenMeteoResponse :=
  { latitude := 0
    longitude := 0
    current_weather :=
      { temperature := 15, windspeed := 3, winddirection := 90,
        weathercode := 61, time := ⟨⟨2024, 1, 1⟩, 10, 0⟩ }
    hourly :=
      { time := [⟨⟨2024, 1, 1⟩, 0, 0⟩]
        temperature_2m := [10]
        apparent_temperature := [9]
        relative_humidity_2m := [50]
        pressure_msl := [1000]
        cloudcover := [20]
        visibility := [10000]
        windspeed_10m := [3]
        winddirection_10m := [90]
        weathercode := [61] }
    daily :=
      { time := [⟨⟨2024, 1, 1⟩, 0, 0⟩, ⟨⟨2024, 1, 2⟩, 0, 0⟩]
        temperature_2m_max := [8, 22]
        temperature_2m_min := [5, 18]
        sunrise := [⟨⟨2024, 1, 1⟩, 8, 0⟩, ⟨⟨2024, 1, 2⟩, 8, 0⟩]
        sunset := [⟨⟨2024, 1, 1⟩, 16, 0⟩, ⟨⟨2024, 1, 2⟩, 16, 0⟩]
        weathercode := [61, 0] } }

/-- C3: with nonempty daily min and max arrays the current-conditions
builder sets tempMin to the rounded minimum over the entire daily-axis min
array and tempMax to the rounded maximum over the entire daily-axis max
array. -/
theorem formatCurrentWeather_cross_day_extremes (data : OpenMeteoResponse)
    (location : LocationLabel) (currentHour : ℕ)
    (hmin : data.daily.temperature_2m_min ≠ [])
    (hmax : data.daily.temperature_2m_max ≠ []) :
    ∃ qmin qmax : ℚ,
      qmin ∈ data.daily.temperature_2m_min
      ∧ (∀ x ∈ data.daily.temperature_2m_min, qmin ≤ x)
      ∧ (formatCurrentWeather data location currentHour).tempMin = some (jsRound qmin)
      ∧ qmax ∈ data.daily.temperature_2m_max
      ∧ (∀ x ∈ data.daily.temperature_2m_max, x ≤ qmax)
      ∧ (formatCurrentWeather data location currentHour).tempMax = some (jsRound qmax) := by
  obtain ⟨qmin, hqmin⟩ := jsMinList_isSome hmin
  obtain ⟨qmax, hqmax⟩ := jsMaxList_isSome hmax
  obtain ⟨hminmem, hminle⟩ := jsMinList_spec hqmin
  obtain ⟨hmaxmem, hmaxge⟩ := jsMaxList_spec hqmax
  exact ⟨qmin, qmax, hminmem, hminle, by simp [formatCurrentWeather, hqmin],
    hmaxmem, hmaxge, by simp [formatCurrentWeather, hqmax]⟩

/-- Concrete evaluation of the cross-day extremes: daily min and max arrays
[5, 18] and [8, 22] give tempMin 5 and tempMax 22, exactly the spec
example. -/
theorem formatCurrentWeather_cross_day_extremes_witness :
    (formatCurrentWeather payloadC3 locP 10).tempMin = some 5
    ∧ (formatCurrentWeather payloadC3 locP 10).tempMax = some 22
    ∧ ∃ qmin qmax : ℚ,
      qmin ∈ payloadC3.daily.temperature_2m_min
      ∧ (∀ x ∈ payloadC3.daily.temperature_2m_min, qmin ≤ x)
      ∧ (formatCurrentWeather payloadC3 locP 10).tempMin = some (jsRound qmin)
      ∧ qmax ∈ payloadC3.daily.temperature_2m_max
      ∧ (∀ x ∈ payloadC3.daily.temperature_2m_max, x ≤ qmax)
      ∧ (formatCurrentWeather payloadC3 locP 10).tempMax = some (jsRound qmax) := by
  refine ⟨?_, ?_,
    formatCurrentWeather_cross_day_extremes payloadC3 locP 10 (by decide) (by decide)⟩
  · with_unfolding_all rfl
  · with_unfolding_all rfl

/-- C5 evaluation: with an hourly axis of a single sample and current local
hour ten, the builder does not fail; it silently returns a full
CurrentConditions record whose aligned fields carry the undefined marker
(JS NaN from indexing past the end) while the snapshot fields are
populated.  The spec instead requires an alignment-out-of-range failure
and no record. -/
theorem formatCurrentWeather_out_of_range_record :
    (formatCurrentWeather payloadC3 locP 10).feelsLike = none
    ∧ (formatCurrentWeather payloadC3 locP 10).humidity = none
    ∧ (formatCurrentWeather payloadC3 locP 10).pressure = none
    ∧ (formatCurrentWeather payloadC3 locP 10).clouds = none
    ∧ (formatCurrentWeather payloadC3 locP 10).visibility = none
    ∧ (formatCurrentWeather payloadC3 locP 10).temp = 15
    ∧ (formatCurrentWeather payloadC3 locP 10).description = "Легкий дождь" := by
  with_unfolding_all decide

/-- C9: both halves of a combined result carry the label of the single
location lookup, so city and country can never disagree between the
current record and the forecast. -/
theorem getWeatherAndForecast_consistent_label (data : OpenMeteoResponse)
    (reverseLookup : Option NominatimResponse) (currentHour : ℕ) :
    (getWeatherAndForecast data reverseLookup currentHour).current.cityName =
      (getWeatherAndForecast data reverseLookup currentHour).forecast.city
    ∧ (getWeatherAndForecast data reverseLookup currentHour).current.country =
      (getWeatherAndForecast data reverseLookup currentHour).forecast.country :=
  ⟨rfl, rfl⟩

/-- C10: in the current record, in every forecast day and in every hourly
sample, the icon URL is the fixed prefix, the icon id of the record and the
fixed suffix, because both fields are derived from the same weather code. -/
theorem iconUrl_matches_icon (data : OpenMeteoResponse) (location : LocationLabel)
    (currentHour : ℕ) :
    (formatCurrentWeather data location currentHour).iconUrl =
      "https://openweathermap.org/img/wn/" ++
        (formatCurrentWeather data location currentHour).icon ++ "@2x.png"
    ∧ (formatForecast data location).forecast.Forall (fun day =>
        day.iconUrl = "https://openweathermap.org/img/wn/" ++ day.icon ++ "@2x.png"
        ∧ day.hourly.Forall (fun hs =>
            hs.iconUrl = "https://openweathermap.org/img/wn/" ++ hs.icon ++ "@2x.png")) := by
  constructor
  · rfl
  · rw [List.forall_iff_forall_mem]
    intro day hday
    simp only [formatForecast] at hday
    obtain ⟨p, hp, rfl⟩ := List.mem_map.mp hday
    refine ⟨rfl, ?_⟩
    rw [List.forall_iff_forall_mem]
    intro hs hhs
    have hhs' : hs ∈ bucketHourly data.hourly p.2 := hhs
    obtain ⟨q, hq, rfl⟩ := List.mem_map.mp hhs'
    rfl

/-- C8: when the reverse geocoding lookup fails, the combined fetch still
returns a full result, the label is the sentinel Unknown city with an
empty country, and every other field of both halves is identical to the
result of the same fetch with any successful lookup. -/
theorem reverse_lookup_failure_degrades_only_label (data : OpenMeteoResponse)
    (currentHour : ℕ) (resp : NominatimResponse) :
    getWeatherAndForecast data none currentHour =
      { current := { (getWeatherAndForecast data (some resp) currentHour).current with
          cityName := "Unknown", country := "" }
        forecast := { (getWeatherAndForecast data (some resp) currentHour).forecast with
          city := "Unknown", country := "" } }
    ∧ (getWeatherAndForecast data none currentHour).current.cityName = "Unknown"
    ∧ (getWeatherAndForecast data none currentHour).current.country = "" :=
  ⟨rfl, rfl, rfl⟩

/-- Projection of the aggregator loop: the day at forecast position j is
built by mkDay from the daily-axis entry at the same position. -/
theorem formatForecast_day_eq {data : OpenMeteoResponse} {location : LocationLabel}
    {j : ℕ} {day : DailyForecast}
    (h : (formatForecast data location).forecast[j]? = some day) :
    ∃ t, (data.daily.time.take 5)[j]? = some t ∧ day = mkDay data j t := by
  simp only [formatForecast] at h
  rw [List.getElem?_map, List.enum_eq_enumFrom, List.getElem?_enumFrom] at h
  cases ht : (data.daily.time.take 5)[j]? with
  | none => rw [ht] at h; simp at h
  | some t =>
    rw [ht] at h
    simp only [Option.map_some', Option.some.injEq] at h
    exact ⟨t, rfl, by rw [← h]; simp⟩

/-- Day-bucket membership: exactly the normalized samples built from an
hourly-axis position whose time value has the bucket date. -/
theorem mem_bucketHourly {h : HourlyBlock} {date : LocalDT} {hs : HourlyWeatherData} :
    hs ∈ bucketHourly h date ↔
      ∃ i t, h.time[i]? = some t ∧ t.date = date.date ∧ hs = mkHourlySample h t i := by
  unfold bucketHourly
  constructor
  · intro hm
    obtain ⟨p, hp, rfl⟩ := List.mem_map.mp hm
    obtain ⟨hpe, hpf⟩ := List.mem_filter.mp hp
    exact ⟨p.1, p.2, List.mem_enum_iff_getElem?.mp hpe, of_decide_eq_true hpf, rfl⟩
  · rintro ⟨i, t, hit, hdate, rfl⟩
    exact List.mem_map.mpr ⟨(i, t),
      List.mem_filter.mpr ⟨List.mem_enum_iff_getElem?.mpr hit, decide_eq_true hdate⟩, rfl⟩

/-- Unfolding of the day-level humidity field of the loop body. -/
theorem mkDay_humidity (data : OpenMeteoResponse) (i : ℕ) (date : LocalDT) :
    (mkDay data i date).humidity =
      if (bucketHourly data.hourly date).isEmpty then none
      else some (jsRound ((bucketHourly data.hourly date).foldl
        (fun sum h => sum + (h.humidity : ℚ)) 0 /
          ((bucketHourly data.hourly date).length : ℚ))) := rfl

/-- Unfolding of the day-level pressure field of the loop body. -/
theorem mkDay_pressure (data : OpenMeteoResponse) (i : ℕ) (date : LocalDT) :
    (mkDay data i date).pressure =
      if (bucketHourly data.hourly date).isEmpty then none
      else some (jsRound ((bucketHourly data.hourly date).foldl
        (fun sum h => sum + (h.pressure : ℚ)) 0 /
          ((bucketHourly data.hourly date).length : ℚ))) := rfl

/-- Unfolding of the day-level wind-speed field of the loop body. -/
theorem mkDay_windSpeed (data : OpenMeteoResponse) (i : ℕ) (date : LocalDT) :
    (mkDay data i date).windSpeed =
      if (bucketHourly data.hourly date).isEmpty then none
      else some ((jsRound (((bucketHourly data.hourly date).foldl
        (fun sum h => sum + h.windSpeed) 0 /
          ((bucketHourly data.hourly date).length : ℚ)) * 10) : ℚ) / 10) := rfl

/-- C1: with at least one daily entry and daily dates in ascending order,
the aggregator returns exactly min 5 d days, whose dates are the first
min 5 d daily-axis entries in order (hence ascending), and the
hourly sequence of each day consists of exactly the hourly-axis instants of the calendar date of that day, in original axis order. -/
theorem formatForecast_five_day_structure (data : OpenMeteoResponse)
    (location : LocationLabel) (_hd : 1 ≤ data.daily.time.length)
    (hAsc : data.daily.time.Pairwise (fun a b => a.date.before b.date)) :
    (formatForecast data location).forecast.length = min 5 data.daily.time.length
    ∧ (formatForecast data location).forecast.map (fun day => day.date) =
        data.daily.time.take 5
    ∧ ((formatForecast data location).forecast.map (fun day => day.date)).Pairwise
        (fun a b => a.date.before b.date)
    ∧ ∀ (j : ℕ) (day : DailyForecast),
        (formatForecast data location).forecast[j]? = some day →
          day.hourly.map (fun hs => hs.dt) =
            data.hourly.time.filter (fun u => u.date = day.date.date) := by
  have hmapdate : (formatForecast data location).forecast.map (fun day => day.date) =
      data.daily.time.take 5 := by
    simp only [formatForecast, List.map_map]
    have hcomp : ((fun day => day.date) ∘ fun p : ℕ × LocalDT => mkDay data p.1 p.2) =
        Prod.snd := rfl
    rw [hcomp, List.enum_eq_enumFrom, List.enumFrom_map_snd]
  refine ⟨?_, hmapdate, ?_, ?_⟩
  · simp [formatForecast, List.length_take]
  · rw [hmapdate]
    exact hAsc.sublist (List.take_sublist 5 _)
  · intro j day h
    obtain ⟨t, ht, rfl⟩ := formatForecast_day_eq h
    show (bucketHourly data.hourly t).map (fun hs => hs.dt) =
      data.hourly.time.filter (fun u => u.date = t.date)
    unfold bucketHourly
    rw [List.map_map]
    have hcomp : ((fun hs => hs.dt) ∘
        fun p : ℕ × LocalDT => mkHourlySample data.hourly p.2 p.1) = Prod.snd := rfl
    rw [hcomp, List.enum_eq_enumFrom]
    exact enumFrom_filter_snd (fun u => decide (u.date = t.date)) 0 data.hourly.time

/-- Payload with a seven-entry daily axis (the length-seven test of the spec)
and four hourly samples, one of them beyond the fifth day. -/
def payloadC1 : OpenMeteoResponse :=
  { latitude := 0
    longitude := 0
    current_weather :=
      { temperature := 1, windspeed := 1, winddirection := 0,
        weathercode := 0, time := ⟨⟨2024, 1, 1⟩, 0, 0⟩ }
    hourly :=
      { time := [⟨⟨2024, 1, 1⟩, 3, 0⟩, ⟨⟨2024, 1, 1⟩, 15, 0⟩,
                 ⟨⟨2024, 1, 2⟩, 3, 0⟩, ⟨⟨2024, 1, 6⟩, 3, 0⟩]
        temperature_2m := [1, 2, 3, 4]
        apparent_temperature := [1, 2, 3, 4]
        relative_humidity_2m := [10, 20, 30, 40]
        pressure_msl := [1000, 1001, 1002, 1003]
        cloudcover := [0, 0, 0, 0]
        visibility := [100, 100, 100, 100]
        windspeed_10m := [1, 1, 1, 1]
        winddirection_10m := [0, 0, 0, 0]
        weathercode := [0, 1, 2, 3] }
    daily :=
      { time := [⟨⟨2024, 1, 1⟩, 0, 0⟩, ⟨⟨2024, 1, 2⟩, 0, 0⟩, ⟨⟨2024, 1, 3⟩, 0, 0⟩,
                 ⟨⟨2024, 1, 4⟩, 0, 0⟩, ⟨⟨2024, 1, 5⟩, 0, 0⟩, ⟨⟨2024, 1, 6⟩, 0, 0⟩,
                 ⟨⟨2024, 1, 7⟩, 0, 0⟩]
        temperature_2m_max := [11, 12, 13, 14, 15, 16, 17]
        temperature_2m_min := [1, 2, 3, 4, 5, 6, 7]
        sunrise := [⟨⟨2024, 1, 1⟩, 8, 0⟩, ⟨⟨2024, 1, 2⟩, 8, 0⟩, ⟨⟨2024, 1, 3⟩, 8, 0⟩,
                    ⟨⟨2024, 1, 4⟩, 8, 0⟩, ⟨⟨2024, 1, 5⟩, 8, 0⟩, ⟨⟨2024, 1, 6⟩, 8, 0⟩,
                    ⟨⟨2024, 1, 7⟩, 8, 0⟩]
        sunset := [⟨⟨2024, 1, 1⟩, 16, 0⟩, ⟨⟨2024, 1, 2⟩, 16, 0⟩, ⟨⟨2024, 1, 3⟩, 16, 0⟩,
                   ⟨⟨2024, 1, 4⟩, 16, 0⟩, ⟨⟨2024, 1, 5⟩, 16, 0⟩, ⟨⟨2024, 1, 6⟩, 16, 0⟩,
                   ⟨⟨2024, 1, 7⟩, 16, 0⟩]
        weathercode := [0, 1, 2, 3, 45, 48, 51] } }

/-- Concrete evaluation of the five-day structure on the seven-day payload:
length is min 5 7, the day dates are the first five daily entries, and the
daily axis indeed has seven entries. -/
theorem formatForecast_five_day_structure_witness :
    (formatForecast payloadC1 locP).forecast.length = min 5 payloadC1.daily.time.length
    ∧ (formatForecast payloadC1 locP).forecast.map (fun day => day.date) =
        payloadC1.daily.time.take 5
    ∧ payloadC1.daily.time.length = 7 := by
  have H := formatForecast_five_day_structure payloadC1 locP (by decide) (by decide)
  exact ⟨H.1, H.2.1, by decide⟩

/-- Payload of the averaging example: one daily entry, two hourly samples
of that same calendar date with humidity values 40 and 60. -/
def payloadC4 : OpenMeteoResponse :=
  { latitude := 0
    longitude := 0
    current_weather :=
      { temperature := 12, windspeed := 2, winddirection := 45,
        weathercode := 0, time := ⟨⟨2024, 1, 1⟩, 0, 0⟩ }
    hourly :=
      { time := [⟨⟨2024, 1, 1⟩, 0, 0⟩, ⟨⟨2024, 1, 1⟩, 1, 0⟩]
        temperature_2m := [10, 12]
        apparent_temperature := [9, 11]
        relative_humidity_2m := [40, 60]
        pressure_msl := [1000, 1010]
        cloudcover := [5, 15]
        visibility := [9000, 9500]
        windspeed_10m := [2, 3]
        winddirection_10m := [45, 90]
        weathercode := [0, 1] }
    daily :=
      { time := [⟨⟨2024, 1, 1⟩, 0, 0⟩]
        temperature_2m_max := [20]
        temperature_2m_min := [10]
        sunrise := [⟨⟨2024, 1, 1⟩, 8, 0⟩]
        sunset := [⟨⟨2024, 1, 1⟩, 16, 0⟩]
        weathercode := [0] } }

/-- Day built at forecast position zero of the averaging payload. -/
def dayC4 : DailyForecast := mkDay payloadC4 0 ⟨⟨2024, 1, 1⟩, 0, 0⟩

/-- C4: every returned day owning at least one hourly sample has day-level
humidity, pressure and wind speed equal to the arithmetic mean over exactly
its bucketed samples, with the rounding of the source (humidity and pressure to
the nearest integer, wind speed to one decimal place). -/
theorem formatForecast_day_averages (data : OpenMeteoResponse)
    (location : LocationLabel) (j : ℕ) (day : DailyForecast)
    (h : (formatForecast data location).forecast[j]? = some day)
    (hne : day.hourly ≠ []) :
    day.humidity = some (jsRound
      ((day.hourly.map (fun hs => (hs.humidity : ℚ))).sum / (day.hourly.length : ℚ)))
    ∧ day.pressure = some (jsRound
      ((day.hourly.map (fun hs => (hs.pressure : ℚ))).sum / (day.hourly.length : ℚ)))
    ∧ day.windSpeed = some ((jsRound
      (((day.hourly.map (fun hs => hs.windSpeed)).sum / (day.hourly.length : ℚ)) * 10) : ℚ)
        / 10) := by
  obtain ⟨t, ht, rfl⟩ := formatForecast_day_eq h
  have hne' : bucketHourly data.hourly t ≠ [] := hne
  have hbe : ¬((bucketHourly data.hourly t).isEmpty = true) := fun hc =>
    hne' (List.isEmpty_iff.mp hc)
  refine ⟨?_, ?_, ?_⟩
  · rw [mkDay_humidity, if_neg hbe, foldl_add_map, zero_add]
    rfl
  · rw [mkDay_pressure, if_neg hbe, foldl_add_map, zero_add]
    rfl
  · rw [mkDay_windSpeed, if_neg hbe, foldl_add_map, zero_add]
    rfl

set_option maxRecDepth 8000 in
/-- Concrete evaluation of the day averages: the single day owning the two
humidity samples 40 and 60 reports day-level humidity 50. -/
theorem formatForecast_day_averages_witness :
    (formatForecast payloadC4 locP).forecast[0]? = some dayC4
    ∧ dayC4.hourly ≠ []
    ∧ dayC4.humidity = some (jsRound
      ((dayC4.hourly.map (fun hs => (hs.humidity : ℚ))).sum / (dayC4.hourly.length : ℚ)))
    ∧ dayC4.humidity = some 50 := by
  have hd : (formatForecast payloadC4 locP).forecast[0]? = some dayC4 := rfl
  have hne : dayC4.hourly ≠ [] := by decide
  exact ⟨hd, hne, (formatForecast_day_averages payloadC4 locP 0 dayC4 hd hne).1,
    by with_unfolding_all decide⟩

/-- C2 amended: when the first min 5 d daily dates are pairwise distinct,
every sample of a returned day carries the calendar date of that day, no two
distinct returned days share a sample, and a normalized sample built from
hourly-axis position i belongs to some returned day exactly when its date
occurs among the dates of the returned days. -/
theorem formatForecast_bucket_partition (data : OpenMeteoResponse)
    (location : LocationLabel)
    (hdist : ((data.daily.time.take 5).map (fun t => t.date)).Nodup) :
    (∀ day ∈ (formatForecast data location).forecast,
      ∀ hs ∈ day.hourly, hs.dt.date = day.date.date)
    ∧ (∀ (j k : ℕ) (dj dk : DailyForecast),
        (formatForecast data location).forecast[j]? = some dj →
        (formatForecast data location).forecast[k]? = some dk →
        j ≠ k → ∀ hs ∈ dj.hourly, hs ∉ dk.hourly)
    ∧ (∀ (i : ℕ) (t : LocalDT), data.hourly.time[i]? = some t →
        ((∃ day ∈ (formatForecast data location).forecast,
            mkHourlySample data.hourly t i ∈ day.hourly)
          ↔ t.date ∈ (formatForecast data location).forecast.map
              (fun day => day.date.date))) := by
  have hdate : ∀ (td : LocalDT) (hs : HourlyWeatherData),
      hs ∈ bucketHourly data.hourly td → hs.dt.date = td.date := by
    intro td hs hm
    obtain ⟨i, t, _, hdt, rfl⟩ := mem_bucketHourly.mp hm
    exact hdt
  refine ⟨?_, ?_, ?_⟩
  · intro day hday hs hhs
    simp only [formatForecast] at hday
    obtain ⟨p, hp, rfl⟩ := List.mem_map.mp hday
    exact hdate p.2 hs hhs
  · intro j k dj dk hj hk hjk hs hsj hsk
    obtain ⟨tj, htj, rfl⟩ := formatForecast_day_eq hj
    obtain ⟨tk, htk, rfl⟩ := formatForecast_day_eq hk
    have hjd : ((data.daily.time.take 5).map (fun t => t.date))[j]? = some tj.date := by
      rw [List.getElem?_map, htj]
      rfl
    have hkd : ((data.daily.time.take 5).map (fun t => t.date))[k]? = some tk.date := by
      rw [List.getElem?_map, htk]
      rfl
    have hne : tj.date ≠ tk.date := ne_of_nodup_getElem? hdist hjd hkd hjk
    exact hne ((hdate tj hs hsj).symm.trans (hdate tk hs hsk))
  · intro i t hit
    constructor
    · rintro ⟨day, hday, hmem⟩
      simp only [formatForecast] at hday
      obtain ⟨p, hp, rfl⟩ := List.mem_map.mp hday
      have := hdate p.2 (mkHourlySample data.hourly t i) hmem
      exact List.mem_map.mpr ⟨mkDay data p.1 p.2,
        by simpa only [formatForecast] using List.mem_map.mpr ⟨p, hp, rfl⟩, this.symm⟩
    · intro hmemdate
      obtain ⟨day, hday, hdd⟩ := List.mem_map.mp hmemdate
      refine ⟨day, hday, ?_⟩
      simp only [formatForecast] at hday
      obtain ⟨p, hp, rfl⟩ := List.mem_map.mp hday
      exact mem_bucketHourly.mpr ⟨i, t, hit, hdd.symm, rfl⟩

/-- Payload refuting the partition claim: two daily entries with the same
calendar date (different times of day) and two hourly samples, one on that
date and one on the following date that no daily entry of the first five
covers. -/
def payloadC2x : OpenMeteoResponse :=
  { latitude := 0
    longitude := 0
    current_weather :=
      { temperature := 5, windspeed := 1, winddirection := 0,
        weathercode := 0, time := ⟨⟨2024, 1, 1⟩, 0, 0⟩ }
    hourly :=
      { time := [⟨⟨2024, 1, 1⟩, 5, 0⟩, ⟨⟨2024, 1, 2⟩, 5, 0⟩]
        temperature_2m := [1, 2]
        apparent_temperature := [1, 2]
        relative_humidity_2m := [10, 20]
        pressure_msl := [1000, 1001]
        cloudcover := [0, 0]
        visibility := [100, 100]
        windspeed_10m := [1, 1]
        winddirection_10m := [0, 0]
        weathercode := [0, 1] }
    daily :=
      { time := [⟨⟨2024, 1, 1⟩, 0, 0⟩, ⟨⟨2024, 1, 1⟩, 12, 0⟩]
        temperature_2m_max := [11, 12]
        temperature_2m_min := [1, 2]
        sunrise := [⟨⟨2024, 1, 1⟩, 8, 0⟩, ⟨⟨2024, 1, 1⟩, 8, 0⟩]
        sunset := [⟨⟨2024, 1, 1⟩, 16, 0⟩, ⟨⟨2024, 1, 1⟩, 16, 0⟩]
        weathercode := [0, 1] } }

set_option maxRecDepth 8000 in
/-- C2 counterexample: on payloadC2x the two returned days both own the
sample of hourly-axis index zero, and the sample of index one belongs to
no returned day, so the union of the day buckets is not the hourly axis
and two days share a sample. -/
theorem formatForecast_partition_counterexample :
    (formatForecast payloadC2x locP).forecast.map
        (fun day => day.hourly.map (fun hs => hs.dt)) =
      [[⟨⟨2024, 1, 1⟩, 5, 0⟩], [⟨⟨2024, 1, 1⟩, 5, 0⟩]]
    ∧ payloadC2x.hourly.time = [⟨⟨2024, 1, 1⟩, 5, 0⟩, ⟨⟨2024, 1, 2⟩, 5, 0⟩] := by
  constructor
  · with_unfolding_all decide
  · rfl

/-- Concrete evaluation of the amended partition theorem: on the averaging
payload the sample built from hourly index zero belongs to a returned day. -/
theorem formatForecast_bucket_partition_witness :
    ∃ day ∈ (formatForecast payloadC4 locP).forecast,
      mkHourlySample payloadC4.hourly ⟨⟨2024, 1, 1⟩, 0, 0⟩ 0 ∈ day.hourly := by
  have H := formatForecast_bucket_partition payloadC4 locP (by decide)
  exact (H.2.2 0 ⟨⟨2024, 1, 1⟩, 0, 0⟩ rfl).mpr (by decide)

end WeatherApi
